import Mathlib

/-!
Shallow embedding of `src/buffer_overflow_detector.py` (class
`BufferOverflowDetector`).  Python strings are modelled as Lean `String`
(length counts code points, as Python's `len` does), Python lists as Lean
`List`, Python's arbitrary-precision `int` as `Int`, and Python `float`
values as `ℚ` (finite values; IEEE NaN/infinity are outside the
embedding).  The host-dependent constants `sys.maxsize` and
`sys.float_info.max` are parameters of the constructor.  The operations
that consult the operating system (`psutil.virtual_memory`,
`psutil.disk_usage`, `psutil.disk_partitions`, `time.time`, and the
runtime's memory allocator) are modelled by passing the outcome of the
external query as an explicit argument: `Except String X` where the
`.error` case carries `str(e)` of the raised exception.  Python's numeric
format specifiers (`:.1f`, `:.4f`) are abstracted to `toString`; the
surrounding message text is reproduced verbatim.
-/

/-- State of `BufferOverflowDetector.__init__`: the thresholds the class
stores on `self`. -/
structure BufferOverflowDetector where
  max_string_length : Int
  max_int_value : Int
  min_int_value : Int
  max_float_value : ℚ
  min_float_value : ℚ
  memory_threshold : ℚ
  disk_threshold : ℚ
deriving DecidableEq

/-- Mirrors `__init__`: `maxsize` stands for the host's `sys.maxsize` and
`float_max` for `sys.float_info.max`; the remaining fields are the
literal constants of the source. -/
def mkDetector (maxsize : Int) (float_max : ℚ) : BufferOverflowDetector :=
  { max_string_length := 255
    max_int_value := maxsize
    min_int_value := -maxsize - 1
    max_float_value := float_max
    min_float_value := -float_max
    memory_threshold := 90
    disk_threshold := 90 }

/-- Result dictionary of `check_string`. -/
structure StringResult where
  overflow : Bool
  message : String
  value : String
  max_allowed : Int
deriving DecidableEq

/-- Embeds `check_string(input_str, max_length=None)`.  The `Option`
argument models the Python default `None`, resolved against
`self.max_string_length` exactly as the source's `if max_length is None`
does.  The `try/except` of the source is unreachable for a Python `str`
argument (`len` of a string does not raise) and is not modelled. -/
def check_string (d : BufferOverflowDetector) (input_str : String)
    (max_length : Option Int) : StringResult :=
  let ml : Int :=
    match max_length with
    | Option.none => d.max_string_length
    | Option.some v => v
  let base : StringResult :=
    { overflow := false, message := "", value := input_str, max_allowed := ml }
  if (input_str.length : Int) > ml then
    { base with
      overflow := true
      message := "Dépassement de tampon détecté: " ++ toString input_str.length
        ++ " caractères > maximum " ++ toString ml }
  else base

/-- Result dictionary of `check_character`. -/
structure CharResult where
  overflow : Bool
  message : String
  value : String
deriving DecidableEq

/-- Embeds `check_character(char)`; overflow when `len(char) > 1`. -/
def check_character (d : BufferOverflowDetector) (char : String) : CharResult :=
  let base : CharResult := { overflow := false, message := "", value := char }
  if char.length > 1 then
    { base with
      overflow := true
      message := "Dépassement de caractère détecté: \x27" ++ char
        ++ "\x27 contient " ++ toString char.length ++ " caractères" }
  else base

/-- Result dictionary of `check_number` in its integer branch; `limits`
is `none` when the `"limits"` key is absent. -/
structure NumberIntResult where
  overflow : Bool
  message : String
  value : Int
  type : String
  limits : Option (Int × Int)
deriving DecidableEq

/-- Result dictionary of `check_number` in its float branch. -/
structure NumberFloatResult where
  overflow : Bool
  message : String
  value : ℚ
  type : String
  limits : Option (ℚ × ℚ)
deriving DecidableEq

/-- Embeds `check_number(value, is_integer=True)`: the `is_integer`
branch of the source, comparing against `self.max_int_value` and
`self.min_int_value`. -/
def check_number_int (d : BufferOverflowDetector) (value : Int) : NumberIntResult :=
  let base : NumberIntResult :=
    { overflow := false, message := "", value := value, type := "integer",
      limits := Option.none }
  if value > d.max_int_value ∨ value < d.min_int_value then
    { base with
      overflow := true
      message := "Dépassement d\x27entier détecté: " ++ toString value
      limits := Option.some (d.max_int_value, d.min_int_value) }
  else base

/-- Embeds `check_number(value, is_integer=False)`: the float branch,
comparing against `self.max_float_value` and `self.min_float_value`, with
floats modelled as rationals. -/
def check_number_float (d : BufferOverflowDetector) (value : ℚ) : NumberFloatResult :=
  let base : NumberFloatResult :=
    { overflow := false, message := "", value := value, type := "float/double",
      limits := Option.none }
  if value > d.max_float_value ∨ value < d.min_float_value then
    { base with
      overflow := true
      message := "Dépassement de flottant détecté: " ++ toString value
      limits := Option.some (d.max_float_value, d.min_float_value) }
  else base

/-- Result dictionary of `check_array`. -/
structure ArrayResult where
  overflow : Bool
  message : String
  size : Nat
  max_allowed : Int
deriving DecidableEq

/-- Embeds `check_array(array, max_size)`; overflow when
`len(array) > max_size`. -/
def check_array {α : Type} (d : BufferOverflowDetector) (array : List α)
    (max_size : Int) : ArrayResult :=
  let base : ArrayResult :=
    { overflow := false, message := "", size := array.length,
      max_allowed := max_size }
  if (array.length : Int) > max_size then
    { base with
      overflow := true
      message := "Dépassement de tableau détecté: taille " ++ toString array.length
        ++ " > maximum " ++ toString max_size }
  else base

/-- Result dictionary of `check_stack` / `check_list`: the `check_array`
dictionary with the added `"type"` key. -/
structure TypedArrayResult where
  overflow : Bool
  message : String
  size : Nat
  max_allowed : Int
  type : String
deriving DecidableEq

/-- Embeds `check_stack(stack, max_size)`: calls `check_array` and adds
`result["type"] = "stack"`. -/
def check_stack {α : Type} (d : BufferOverflowDetector) (stack : List α)
    (max_size : Int) : TypedArrayResult :=
  let r := check_array d stack max_size
  { overflow := r.overflow, message := r.message, size := r.size,
    max_allowed := r.max_allowed, type := "stack" }

/-- Embeds `check_list(lst, max_size)`: calls `check_array` and adds
`result["type"] = "list"`. -/
def check_list {α : Type} (d : BufferOverflowDetector) (lst : List α)
    (max_size : Int) : TypedArrayResult :=
  let r := check_array d lst max_size
  { overflow := r.overflow, message := r.message, size := r.size,
    max_allowed := r.max_allowed, type := "list" }

/-- Result dictionary of `check_matrix`; `dimensions` is the
`(rows, cols)` pair, `max_allowed` the `(max_rows, max_cols)` pair. -/
structure MatrixResult where
  overflow : Bool
  message : String
  dimensions : Nat × Nat
  max_allowed : Int × Int
deriving DecidableEq

/-- The rows-exceeded message of `check_matrix`. -/
def rowsOverflowMsg (rows : Nat) (max_rows : Int) : String :=
  "Dépassement de matrice détecté: " ++ toString rows ++ " lignes > maximum "
    ++ toString max_rows

/-- The cols-exceeded message of `check_matrix`. -/
def colsOverflowMsg (cols : Nat) (max_cols : Int) : String :=
  "Dépassement de matrice détecté: " ++ toString cols ++ " colonnes > maximum "
    ++ toString max_cols

/-- Embeds Python's `max(len(row) for row in matrix)`: for a nonempty
list of rows the fold over `max` with base `0` equals the maximum row
length, since lengths are nonnegative. -/
def maxRowLen {α : Type} (matrix : List (List α)) : Nat :=
  (matrix.map List.length).foldr max 0

/-- Embeds `check_matrix(matrix, max_rows, max_cols)`.  In the source's
columns branch, `result["overflow"] = True` is executed before the
ternary `message if not result["overflow"] else result["message"] + f"..."`,
so that ternary's condition is always false and the concatenation branch
is always taken (including when only the columns overflowed, which leaves
a leading " et "). -/
def check_matrix {α : Type} (d : BufferOverflowDetector) (matrix : List (List α))
    (max_rows max_cols : Int) : MatrixResult :=
  let rows := matrix.length
  let cols := if rows > 0 then maxRowLen matrix else 0
  let base : MatrixResult :=
    { overflow := false, message := "", dimensions := (rows, cols),
      max_allowed := (max_rows, max_cols) }
  let r1 :=
    if (rows : Int) > max_rows then
      { base with overflow := true, message := rowsOverflowMsg rows max_rows }
    else base
  if (cols : Int) > max_cols then
    { r1 with
      overflow := true
      message := r1.message ++ " et " ++ colsOverflowMsg cols max_cols }
  else r1

/-- Fields of `psutil.virtual_memory()` that the source reads. -/
structure MemInfo where
  total : Int
  available : Int
  used : Int
  percent : ℚ
deriving DecidableEq

/-- The `memory_info` sub-dictionary built by `check_memory_usage`. -/
structure MemInfoOut where
  total : Int
  available : Int
  used : Int
  percent : ℚ
  total_gb : ℚ
  available_gb : ℚ
  used_gb : ℚ
deriving DecidableEq

/-- Result dictionary of `check_memory_usage`; `memory_info` is `none`
when the exception path leaves the initial empty dictionary. -/
structure MemoryResult where
  overflow : Bool
  message : String
  memory_info : Option MemInfoOut
deriving DecidableEq

/-- Embeds `check_memory_usage()`.  The `psutil.virtual_memory()` call is
an external query whose outcome is the `query` argument; `.error e`
models the call raising an exception with `str(e) = e`, which the
source's `except` converts into an overflow result. -/
def check_memory_usage (d : BufferOverflowDetector)
    (query : Except String MemInfo) : MemoryResult :=
  match query with
  | Except.error e =>
    { overflow := true,
      message := "Erreur lors de la vérification de la mémoire: " ++ e,
      memory_info := Option.none }
  | Except.ok m =>
    let info : MemInfoOut :=
      { total := m.total, available := m.available, used := m.used,
        percent := m.percent,
        total_gb := (m.total : ℚ) / 1024 ^ 3,
        available_gb := (m.available : ℚ) / 1024 ^ 3,
        used_gb := (m.used : ℚ) / 1024 ^ 3 }
    if m.percent > d.memory_threshold then
      { overflow := true,
        message := "Attention: Utilisation élevée de la mémoire ("
          ++ toString m.percent ++ "%)",
        memory_info := Option.some info }
    else
      { overflow := false, message := "", memory_info := Option.some info }

/-- Fields of `psutil.disk_usage(path)` that the source reads. -/
structure DiskUsage where
  total : Int
  used : Int
  free : Int
  percent : ℚ
deriving DecidableEq

/-- The `disk_info` sub-dictionary built by `check_disk_usage`. -/
structure DiskInfoOut where
  path : String
  total : Int
  used : Int
  free : Int
  percent : ℚ
  total_gb : ℚ
  used_gb : ℚ
  free_gb : ℚ
deriving DecidableEq

/-- Result dictionary of `check_disk_usage`. -/
structure DiskResult where
  overflow : Bool
  message : String
  disk_info : Option DiskInfoOut
deriving DecidableEq

/-- Embeds `check_disk_usage(path="/")`; the `psutil.disk_usage(path)`
outcome is the `query` argument. -/
def check_disk_usage (d : BufferOverflowDetector) (path : String)
    (query : Except String DiskUsage) : DiskResult :=
  match query with
  | Except.error e =>
    { overflow := true,
      message := "Erreur lors de la vérification du disque: " ++ e,
      disk_info := Option.none }
  | Except.ok disk =>
    let info : DiskInfoOut :=
      { path := path, total := disk.total, used := disk.used, free := disk.free,
        percent := disk.percent,
        total_gb := (disk.total : ℚ) / 1024 ^ 3,
        used_gb := (disk.used : ℚ) / 1024 ^ 3,
        free_gb := (disk.free : ℚ) / 1024 ^ 3 }
    if disk.percent > d.disk_threshold then
      { overflow := true,
        message := "Attention: Utilisation élevée du disque ("
          ++ toString disk.percent ++ "%) pour " ++ path,
        disk_info := Option.some info }
    else
      { overflow := false, message := "", disk_info := Option.some info }

/-- Fields of a `psutil.disk_partitions` entry that the source reads. -/
structure PartitionInfo where
  device : String
  mountpoint : String
  fstype : String
  opts : String
deriving DecidableEq

/-- A `drive_info` entry built by `check_removable_drives`. -/
structure DriveInfo where
  device : String
  mountpoint : String
  fstype : String
  total_gb : ℚ
  used_gb : ℚ
  free_gb : ℚ
  percent : ℚ
deriving DecidableEq

/-- Result dictionary of `check_removable_drives`. -/
structure DrivesResult where
  overflow : Bool
  message : String
  drives : List DriveInfo
deriving DecidableEq

/-- Lower-cases a string character by character, as Python's
`str.lower` does on ASCII option strings. -/
def lowerStr (s : String) : String :=
  String.mk (s.data.map Char.toLower)

/-- Substring test: embeds Python's `needle in hay`. -/
def containsSub (needle hay : String) : Bool :=
  hay.data.tails.any (fun t => needle.data.isPrefixOf t)

/-- The removable-drive heuristic of `check_removable_drives`, with
Python's operator precedence: `(device truthy and "removable" in
opts.lower()) or (Windows and device.startswith(("E:","F:","G:","H:")))`.
The `platform.system() == "Windows"` query is the `isWindows` flag. -/
def isRemovableCandidate (isWindows : Bool) (p : PartitionInfo) : Bool :=
  (!p.device.isEmpty && containsSub "removable" (lowerStr p.opts))
    || (isWindows && (p.device.startsWith "E:" || p.device.startsWith "F:"
        || p.device.startsWith "G:" || p.device.startsWith "H:"))

/-- Body of the partition loop of `check_removable_drives`: the
per-partition `psutil.disk_usage(partition.mountpoint)` outcome is paired
with the partition; its `.error` case is the inner bare `except` that
skips an inaccessible drive. -/
def processPartition (d : BufferOverflowDetector) (isWindows : Bool)
    (acc : DrivesResult) (pu : PartitionInfo × Except String DiskUsage) :
    DrivesResult :=
  if isRemovableCandidate isWindows pu.1 then
    match pu.2 with
    | Except.error _ => acc
    | Except.ok usage =>
      let di : DriveInfo :=
        { device := pu.1.device, mountpoint := pu.1.mountpoint,
          fstype := pu.1.fstype,
          total_gb := (usage.total : ℚ) / 1024 ^ 3,
          used_gb := (usage.used : ℚ) / 1024 ^ 3,
          free_gb := (usage.free : ℚ) / 1024 ^ 3,
          percent := usage.percent }
      let acc1 := { acc with drives := acc.drives ++ [di] }
      if usage.percent > d.disk_threshold then
        let msg := "Attention: Utilisation élevée du disque amovible ("
          ++ toString usage.percent ++ "%) pour " ++ pu.1.device
        { acc1 with
          overflow := true
          message := if acc1.message.isEmpty then msg
            else acc1.message ++ "\n" ++ msg }
      else acc1
  else acc

/-- Embeds `check_removable_drives()`: the `psutil.disk_partitions`
outcome is the `query` argument; on success the partitions are folded in
order through the loop body. -/
def check_removable_drives (d : BufferOverflowDetector) (isWindows : Bool)
    (query : Except String (List (PartitionInfo × Except String DiskUsage))) :
    DrivesResult :=
  match query with
  | Except.error e =>
    { overflow := true,
      message := "Erreur lors de la vérification des disques amovibles: " ++ e,
      drives := [] }
  | Except.ok parts =>
    parts.foldl (processPartition d isWindows)
      { overflow := false, message := "", drives := [] }

/-- Result dictionary of `simulate_buffer_overflow`; `allocated_size` and
`allocation_time` are `none` when those keys are never set (the
exception paths). -/
structure SimResult where
  overflow : Bool
  message : String
  simulation : String
  allocated_size : Option Int
  allocation_time : Option ℚ
deriving DecidableEq

/-- The success message of `simulate_buffer_overflow`. -/
def allocSuccessMsg (size : Int) (t : ℚ) : String :=
  "Allocation réussie de " ++ toString size ++ " éléments en " ++ toString t
    ++ " secondes"

/-- The `MemoryError` message of `simulate_buffer_overflow`. -/
def memOverflowMsg (size : Int) : String :=
  "Dépassement de mémoire détecté: impossible d\x27allouer " ++ toString size
    ++ " éléments"

/-- Embeds `simulate_buffer_overflow(size)`.  Python's `[0] * size`
yields the empty list for every `size <= 0` and never raises there, so
the allocation can only fail for positive sizes; `memAvailable` models
whether the runtime can satisfy a positive allocation (a `MemoryError`
is raised otherwise).  `t0` and `t1` are the two `time.time()` samples
taken around the allocation. -/
def simulate_buffer_overflow (d : BufferOverflowDetector) (size : Int)
    (memAvailable : Bool) (t0 t1 : ℚ) : SimResult :=
  if size ≤ 0 ∨ memAvailable then
    { overflow := false,
      message := allocSuccessMsg size (t1 - t0),
      simulation := "buffer_overflow",
      allocated_size := Option.some size,
      allocation_time := Option.some (t1 - t0) }
  else
    { overflow := true,
      message := memOverflowMsg size,
      simulation := "buffer_overflow",
      allocated_size := Option.none,
      allocation_time := Option.none }

/-- C1: for every string s and every bound n, with n defaulting to 255
when not supplied, check_string(s, n) returns a result whose overflow
field is true if and only if length(s) > n. -/
theorem check_string_overflow_iff (maxsize : Int) (fmax : ℚ) (s : String)
    (n : Option Int) :
    (check_string (mkDetector maxsize fmax) s n).overflow = true ↔
      (s.length : Int) > n.getD 255 := by
  cases n <;> simp only [check_string, mkDetector, Option.getD] <;>
    split <;> simp_all

/-- C2: for every list a of length L and every bound N, check_array(a, N)
returns overflow true if and only if L > N, and the result carries
size = L and max_allowed = N; in particular on a 15-element list with
bound 10 it returns overflow=true, size=15, max_allowed=10. -/
theorem check_array_spec {α : Type} (d : BufferOverflowDetector) (a : List α)
    (N : Int) :
    ((check_array d a N).overflow = true ↔ (a.length : Int) > N)
    ∧ (check_array d a N).size = a.length
    ∧ (check_array d a N).max_allowed = N
    ∧ (check_array d (List.replicate 15 (0 : Int)) 10).overflow = true
    ∧ (check_array d (List.replicate 15 (0 : Int)) 10).size = 15
    ∧ (check_array d (List.replicate 15 (0 : Int)) 10).max_allowed = 10 := by
  refine ⟨?_, ?_, ?_, ?_, ?_, ?_⟩ <;>
    simp only [check_array] <;> split <;> simp_all

/-- C3: for every list a and bound N, check_stack(a, N) and
check_list(a, N) each return exactly the record check_array(a, N)
returns plus one added type field ("stack" and "list" respectively);
overflow, message, size and max_allowed are identical. -/
theorem check_stack_list_refine_array {α : Type} (d : BufferOverflowDetector)
    (a : List α) (N : Int) :
    ((check_stack d a N).overflow = (check_array d a N).overflow
      ∧ (check_stack d a N).message = (check_array d a N).message
      ∧ (check_stack d a N).size = (check_array d a N).size
      ∧ (check_stack d a N).max_allowed = (check_array d a N).max_allowed
      ∧ (check_stack d a N).type = "stack")
    ∧ ((check_list d a N).overflow = (check_array d a N).overflow
      ∧ (check_list d a N).message = (check_array d a N).message
      ∧ (check_list d a N).size = (check_array d a N).size
      ∧ (check_list d a N).max_allowed = (check_array d a N).max_allowed
      ∧ (check_list d a N).type = "list") :=
  ⟨⟨rfl, rfl, rfl, rfl, rfl⟩, ⟨rfl, rfl, rfl, rfl, rfl⟩⟩

/-- C5: for every input string c, check_character(c) returns overflow
true if and only if the length of c exceeds 1 code point; single
code-point inputs yield overflow false and multi code-point inputs
overflow true. -/
theorem check_character_overflow_iff (d : BufferOverflowDetector) (c : String) :
    ((check_character d c).overflow = true ↔ c.length > 1)
    ∧ (check_character d c).value = c := by
  constructor
  · simp only [check_character]
    split <;> simp_all
  · simp only [check_character]
    split <;> rfl

/-- Every element of a list of naturals is bounded by the fold of max
with base 0. -/
theorem le_foldr_max (l : List Nat) (x : Nat) (hx : x ∈ l) :
    x ≤ l.foldr max 0 := by
  induction l with
  | nil => cases hx
  | cons a t ih =>
    rcases List.mem_cons.mp hx with h | h
    · subst h; exact le_max_left _ _
    · exact le_trans (ih h) (le_max_right _ _)

/-- For a nonempty list of naturals, the fold of max with base 0 is an
element of the list (lengths are nonnegative, so the base never wins). -/
theorem foldr_max_mem (l : List Nat) (h : l ≠ []) : l.foldr max 0 ∈ l := by
  induction l with
  | nil => exact absurd rfl h
  | cons a t ih =>
    by_cases ht : t = []
    · subst ht; simp
    · have hm := ih ht
      simp only [List.foldr]
      rcases le_total (t.foldr max 0) a with hle | hle
      · rw [max_eq_left hle]; exact List.mem_cons_self a t
      · rw [max_eq_right hle]; exact List.mem_cons_of_mem _ hm

/-- The dimensions reported by check_matrix are the row count and the
source's cols expression, unchanged by the overflow branches. -/
theorem check_matrix_dimensions {α : Type} (d : BufferOverflowDetector)
    (m : List (List α)) (mr mc : Int) :
    (check_matrix d m mr mc).dimensions =
      (m.length, if m.length > 0 then maxRowLen m else 0) := by
  simp only [check_matrix, apply_ite MatrixResult.dimensions, ite_self]

/-- The overflow flag of check_matrix is the disjunction of the two
dimension comparisons. -/
theorem check_matrix_overflow_eq {α : Type} (d : BufferOverflowDetector)
    (m : List (List α)) (mr mc : Int) :
    (check_matrix d m mr mc).overflow =
      (decide ((m.length : Int) > mr)
        || decide (((if m.length > 0 then maxRowLen m else 0 : Nat) : Int) > mc)) := by
  simp only [check_matrix, apply_ite MatrixResult.overflow]
  by_cases h1 : (((if m.length > 0 then maxRowLen m else 0 : Nat)) : Int) > mc <;>
    by_cases h2 : (m.length : Int) > mr <;> simp [h1, h2]

/-- When both dimensions exceed their bounds, check_matrix concatenates
the rows message and the cols message with " et ". -/
theorem check_matrix_message_both {α : Type} (d : BufferOverflowDetector)
    (m : List (List α)) (mr mc : Int)
    (hr : (m.length : Int) > mr)
    (hc : (((if m.length > 0 then maxRowLen m else 0 : Nat)) : Int) > mc) :
    (check_matrix d m mr mc).message =
      rowsOverflowMsg m.length mr ++ " et "
        ++ colsOverflowMsg (if m.length > 0 then maxRowLen m else 0) mc := by
  simp only [check_matrix]
  rw [if_pos hc, if_pos hr]

/-- C4: for every matrix m with R rows, letting C be the maximum row
length (0 when R = 0), check_matrix(m, maxRows, maxCols) reports
dimensions rows = R and cols = C (C bounds every row length and is a row
length when the matrix is nonempty), returns overflow true if and only
if R > maxRows or C > maxCols, and when both bounds are exceeded its
message is the rows-exceeded condition concatenated with the
cols-exceeded condition. -/
theorem check_matrix_spec {α : Type} (d : BufferOverflowDetector)
    (matrix : List (List α)) (max_rows max_cols : Int) :
    (check_matrix d matrix max_rows max_cols).dimensions.1 = matrix.length
    ∧ (matrix = [] → (check_matrix d matrix max_rows max_cols).dimensions.2 = 0)
    ∧ (∀ row ∈ matrix,
        row.length ≤ (check_matrix d matrix max_rows max_cols).dimensions.2)
    ∧ (matrix ≠ [] →
        (check_matrix d matrix max_rows max_cols).dimensions.2
          ∈ matrix.map List.length)
    ∧ ((check_matrix d matrix max_rows max_cols).overflow = true ↔
        ((matrix.length : Int) > max_rows
          ∨ ((check_matrix d matrix max_rows max_cols).dimensions.2 : Int)
              > max_cols))
    ∧ (((matrix.length : Int) > max_rows
        ∧ ((check_matrix d matrix max_rows max_cols).dimensions.2 : Int)
            > max_cols) →
        (check_matrix d matrix max_rows max_cols).message =
          rowsOverflowMsg matrix.length max_rows ++ " et "
            ++ colsOverflowMsg
                (check_matrix d matrix max_rows max_cols).dimensions.2
                max_cols) := by
  have hdim := check_matrix_dimensions d matrix max_rows max_cols
  have hd1 : (check_matrix d matrix max_rows max_cols).dimensions.1
      = matrix.length := by rw [hdim]
  have hd2 : (check_matrix d matrix max_rows max_cols).dimensions.2
      = if matrix.length > 0 then maxRowLen matrix else 0 := by rw [hdim]
  refine ⟨hd1, ?_, ?_, ?_, ?_, ?_⟩
  · intro hnull
    rw [hd2, hnull]
    simp
  · intro row hrow
    rw [hd2]
    have hpos : matrix.length > 0 :=
      List.length_pos.mpr (by rintro rfl; cases hrow)
    rw [if_pos hpos]
    simp only [maxRowLen]
    exact le_foldr_max _ _ (List.mem_map_of_mem List.length hrow)
  · intro hne
    rw [hd2, if_pos (List.length_pos.mpr hne)]
    have hmapne : matrix.map List.length ≠ [] := by
      intro hmap
      exact hne (List.map_eq_nil_iff.mp hmap)
    simpa [maxRowLen] using foldr_max_mem (matrix.map List.length) hmapne
  · rw [hd2, check_matrix_overflow_eq]
    simp
  · rintro ⟨hr, hc⟩
    rw [hd2] at hc
    rw [hd2]
    exact check_matrix_message_both d matrix max_rows max_cols hr hc

/-- Witness for C4 at the concrete 2-row matrix [[0,0,0],[0]] with
maxRows 1 and maxCols 2: both bounds are exceeded and the message
carries both conditions. -/
theorem check_matrix_spec_witness :
    (check_matrix (mkDetector 1 1) ([[0, 0, 0], [0]] : List (List Int)) 1 2).overflow
        = true
    ∧ (check_matrix (mkDetector 1 1) ([[0, 0, 0], [0]] : List (List Int)) 1 2).message
        = rowsOverflowMsg 2 1 ++ " et " ++ colsOverflowMsg 3 2 := by
  obtain ⟨hd1, hnil, hub, hmem, hov, hmsg⟩ :=
    check_matrix_spec (mkDetector 1 1) ([[0, 0, 0], [0]] : List (List Int)) 1 2
  have hd2 : (check_matrix (mkDetector 1 1)
      ([[0, 0, 0], [0]] : List (List Int)) 1 2).dimensions.2 = 3 := by decide
  refine ⟨hov.mpr (Or.inl (by decide)), ?_⟩
  have hmsg' := hmsg ⟨by decide, by rw [hd2]; decide⟩
  rw [hd2] at hmsg'
  exact hmsg'

/-- C6: for every integer v, check_number(v, is_integer=true) returns
overflow true if and only if v > sys.maxsize or v < -sys.maxsize - 1,
and for every float v (modelled as a rational), overflow true if and
only if v lies outside the closed interval from -sys.float_info.max to
sys.float_info.max; when overflow is reported the result carries the
min/max limits, and otherwise no limits field is present. -/
theorem check_number_range_spec (maxsize : Int) (fmax : ℚ) (v : Int) (w : ℚ) :
    ((check_number_int (mkDetector maxsize fmax) v).overflow = true ↔
      (v > maxsize ∨ v < -maxsize - 1))
    ∧ ((check_number_int (mkDetector maxsize fmax) v).limits =
        if v > maxsize ∨ v < -maxsize - 1 then
          Option.some (maxsize, -maxsize - 1) else Option.none)
    ∧ ((check_number_float (mkDetector maxsize fmax) w).overflow = true ↔
        w ∉ Set.Icc (-fmax) fmax)
    ∧ ((check_number_float (mkDetector maxsize fmax) w).limits =
        if w > fmax ∨ w < -fmax then
          Option.some (fmax, -fmax) else Option.none) := by
  have hfloat : (w > fmax ∨ w < -fmax) ↔ w ∉ Set.Icc (-fmax) fmax := by
    rw [Set.mem_Icc]
    constructor
    · rintro (h | h) ⟨h1, h2⟩ <;> linarith
    · intro h
      rcases lt_or_le fmax w with h' | h'
      · exact Or.inl h'
      rcases lt_or_le w (-fmax) with h'' | h''
      · exact Or.inr h''
      exact absurd ⟨h'', h'⟩ h
  refine ⟨?_, ?_, ?_, ?_⟩
  · simp only [check_number_int, mkDetector]
    split <;> simp_all
  · simp only [check_number_int, mkDetector]
    split <;> simp_all
  · rw [← hfloat]
    simp only [check_number_float, mkDetector]
    split <;> simp_all
  · simp only [check_number_float, mkDetector]
    split <;> simp_all

/-- C7: when the virtual-memory query succeeds, check_memory_usage()
returns overflow true if and only if the queried used-percent exceeds
the threshold of 90, and the returned memory_info record is internally
consistent: total_gb, available_gb and used_gb equal the byte figures
total, available and used each divided by 1024^3. -/
theorem check_memory_usage_spec (maxsize : Int) (fmax : ℚ) (m : MemInfo) :
    ((check_memory_usage (mkDetector maxsize fmax) (Except.ok m)).overflow
        = true ↔ m.percent > 90)
    ∧ (∀ mi, (check_memory_usage (mkDetector maxsize fmax)
          (Except.ok m)).memory_info = Option.some mi →
        mi.total_gb = (mi.total : ℚ) / 1024 ^ 3
        ∧ mi.available_gb = (mi.available : ℚ) / 1024 ^ 3
        ∧ mi.used_gb = (mi.used : ℚ) / 1024 ^ 3) := by
  constructor
  · simp only [check_memory_usage, mkDetector]
    split <;> simp_all
  · intro mi hmi
    simp only [check_memory_usage, mkDetector] at hmi
    split at hmi <;>
      · simp only [Option.some.injEq] at hmi
        subst hmi
        exact ⟨rfl, rfl, rfl⟩

/-- Witness for C7 at a concrete successful query: 2 GiB total, percent
95 exceeds the threshold, and the gigabyte figures match the byte
figures. -/
theorem check_memory_usage_spec_witness :
    (check_memory_usage (mkDetector 1 1)
        (Except.ok ⟨2147483648, 1073741824, 1073741824, 95⟩)).overflow = true
    ∧ ((2 : ℚ) = ((2147483648 : Int) : ℚ) / 1024 ^ 3
        ∧ (1 : ℚ) = ((1073741824 : Int) : ℚ) / 1024 ^ 3
        ∧ (1 : ℚ) = ((1073741824 : Int) : ℚ) / 1024 ^ 3) := by
  have h := check_memory_usage_spec 1 1 ⟨2147483648, 1073741824, 1073741824, 95⟩
  refine ⟨h.1.mpr (by norm_num), ?_⟩
  have h2 := h.2 ⟨2147483648, 1073741824, 1073741824, 95, 2, 1, 1⟩
    (by norm_num [check_memory_usage, mkDetector, MemInfoOut.mk.injEq])
  exact h2

/-- C8: when the allocation succeeds (which includes every non-positive
size and every positive size the runtime can satisfy),
simulate_buffer_overflow(size) reports overflow false, allocated_size
equal to size, and a non-negative allocation_time with the success
message; when the runtime signals an out-of-memory condition the result
has overflow true, the memory-overflow message, and no
allocation-success fields.  The function is total, so no exception
escapes in either case. -/
theorem simulate_buffer_overflow_spec (d : BufferOverflowDetector) (size : Int)
    (memAvailable : Bool) (t0 t1 : ℚ) (ht : t0 ≤ t1) :
    ((size ≤ 0 ∨ memAvailable = true) →
      ((simulate_buffer_overflow d size memAvailable t0 t1).overflow = false
      ∧ (simulate_buffer_overflow d size memAvailable t0 t1).allocated_size
          = Option.some size
      ∧ (simulate_buffer_overflow d size memAvailable t0 t1).allocation_time
          = Option.some (t1 - t0)
      ∧ 0 ≤ t1 - t0
      ∧ (simulate_buffer_overflow d size memAvailable t0 t1).message
          = allocSuccessMsg size (t1 - t0)))
    ∧ ((0 < size ∧ memAvailable = false) →
      ((simulate_buffer_overflow d size memAvailable t0 t1).overflow = true
      ∧ (simulate_buffer_overflow d size memAvailable t0 t1).message
          = memOverflowMsg size
      ∧ (simulate_buffer_overflow d size memAvailable t0 t1).allocated_size
          = Option.none
      ∧ (simulate_buffer_overflow d size memAvailable t0 t1).allocation_time
          = Option.none)) := by
  constructor
  · intro h
    simp only [simulate_buffer_overflow]
    rw [if_pos h]
    exact ⟨rfl, rfl, rfl, by linarith, rfl⟩
  · rintro ⟨hs, hm⟩
    simp only [simulate_buffer_overflow]
    rw [if_neg (by
      rintro (h | h)
      · omega
      · simp_all)]
    exact ⟨rfl, rfl, rfl, rfl⟩

/-- Witness for C8: a small allocation of 1000 elements succeeds with
allocated_size 1000, and a positive allocation under an out-of-memory
runtime reports overflow with no allocation_time. -/
theorem simulate_buffer_overflow_spec_witness :
    ((simulate_buffer_overflow (mkDetector 1 1) 1000 true 0 1).overflow = false
      ∧ (simulate_buffer_overflow (mkDetector 1 1) 1000 true 0 1).allocated_size
          = Option.some 1000)
    ∧ ((simulate_buffer_overflow (mkDetector 1 1) 5 false 0 0).overflow = true
      ∧ (simulate_buffer_overflow (mkDetector 1 1) 5 false 0 0).allocation_time
          = Option.none) := by
  have h1 := simulate_buffer_overflow_spec (mkDetector 1 1) 1000 true 0 1
    (by norm_num)
  have h2 := simulate_buffer_overflow_spec (mkDetector 1 1) 5 false 0 0
    (le_refl 0)
  have a1 := h1.1 (Or.inr rfl)
  have a2 := h2.2 ⟨by norm_num, rfl⟩
  exact ⟨⟨a1.1, a1.2.1⟩, ⟨a2.1, a2.2.2.2⟩⟩

/-- Counterexample to C9 as stated.  Inside check_removable_drives, a
removable candidate partition whose per-volume disk-usage query faults
(the "inaccessible volume" case) is swallowed by the inner bare except
at lines 338-340 of the source and silently skipped: the check returns
overflow false with an empty message, so this runtime fault is not
converted into a result with overflow true and a descriptive error
message. -/
theorem removable_fault_skipped_cex :
    (check_removable_drives (mkDetector 9223372036854775807 1) false
        (Except.ok [(⟨"/dev/sdb1", "/mnt/usb", "vfat", "rw,removable"⟩,
          Except.error "inaccessible volume")])).overflow = false
    ∧ (check_removable_drives (mkDetector 9223372036854775807 1) false
        (Except.ok [(⟨"/dev/sdb1", "/mnt/usb", "vfat", "rw,removable"⟩,
          Except.error "inaccessible volume")])).message = ""
    ∧ isRemovableCandidate false ⟨"/dev/sdb1", "/mnt/usb", "vfat", "rw,removable"⟩
        = true := by
  refine ⟨rfl, rfl, by decide⟩

/-- C9 (amended): every check operation is total into its result record,
so no fault is ever propagated; a fault of an operation's outer external
query (virtual memory, disk usage, partition enumeration) and the
out-of-memory fault of the allocation simulation are converted into a
result with overflow true and a descriptive error message; but a
per-volume disk-usage fault inside the partition loop of
check_removable_drives is caught by the inner bare except and silently
skipped, leaving the accumulated result unchanged, so overflow can
remain false and the message empty despite that fault. -/
theorem detector_fault_conversion_amended (d : BufferOverflowDetector)
    (e path : String) (isW : Bool) (size : Int) (t0 t1 : ℚ)
    (acc : DrivesResult) (p : PartitionInfo) :
    ((check_memory_usage d (Except.error e)).overflow = true
      ∧ (check_memory_usage d (Except.error e)).message
        = "Erreur lors de la vérification de la mémoire: " ++ e)
    ∧ ((check_disk_usage d path (Except.error e)).overflow = true
      ∧ (check_disk_usage d path (Except.error e)).message
        = "Erreur lors de la vérification du disque: " ++ e)
    ∧ ((check_removable_drives d isW (Except.error e)).overflow = true
      ∧ (check_removable_drives d isW (Except.error e)).message
        = "Erreur lors de la vérification des disques amovibles: " ++ e)
    ∧ (0 < size →
        ((simulate_buffer_overflow d size false t0 t1).overflow = true
        ∧ (simulate_buffer_overflow d size false t0 t1).message
            = memOverflowMsg size))
    ∧ processPartition d isW acc (p, Except.error e) = acc := by
  refine ⟨⟨rfl, rfl⟩, ⟨rfl, rfl⟩, ⟨rfl, rfl⟩, ?_, ?_⟩
  · intro hs
    simp only [simulate_buffer_overflow]
    rw [if_neg (by
      rintro (h | h)
      · omega
      · simp_all)]
    exact ⟨rfl, rfl⟩
  · simp only [processPartition]
    split <;> rfl

/-- Witness for the amended C9 at a concrete faulting query and a
concrete failing allocation of 7 elements. -/
theorem detector_fault_conversion_amended_witness :
    (simulate_buffer_overflow (mkDetector 1 1) 7 false 0 0).overflow = true
    ∧ (check_memory_usage (mkDetector 1 1) (Except.error "boom")).overflow
        = true
    ∧ processPartition (mkDetector 1 1) false ⟨false, "", []⟩
        (⟨"/dev/sdb1", "/mnt/usb", "vfat", "rw,removable"⟩,
          Except.error "boom")
        = ⟨false, "", []⟩ := by
  have h := detector_fault_conversion_amended (mkDetector 1 1) "boom" "/" false
    7 0 0 ⟨false, "", []⟩ ⟨"/dev/sdb1", "/mnt/usb", "vfat", "rw,removable"⟩
  exact ⟨(h.2.2.2.1 (by norm_num)).1, h.1.1, h.2.2.2.2⟩

/-- C10: for every size that is zero or negative,
simulate_buffer_overflow(size) reports success: overflow false,
allocated_size equal to the given size, a non-negative allocation_time,
and the success message, because Python list repetition with a
non-positive count yields an empty list and cannot fail. -/
theorem simulate_nonpositive_success (d : BufferOverflowDetector) (size : Int)
    (memAvailable : Bool) (t0 t1 : ℚ) (hs : size ≤ 0) (ht : t0 ≤ t1) :
    (simulate_buffer_overflow d size memAvailable t0 t1).overflow = false
    ∧ (simulate_buffer_overflow d size memAvailable t0 t1).allocated_size
        = Option.some size
    ∧ (simulate_buffer_overflow d size memAvailable t0 t1).allocation_time
        = Option.some (t1 - t0)
    ∧ 0 ≤ t1 - t0
    ∧ (simulate_buffer_overflow d size memAvailable t0 t1).message
        = allocSuccessMsg size (t1 - t0) := by
  simp only [simulate_buffer_overflow]
  rw [if_pos (Or.inl hs)]
  exact ⟨rfl, rfl, rfl, by linarith, rfl⟩

/-- Witness for C10 at the concrete negative size -3 with no available
memory: the simulation still succeeds. -/
theorem simulate_nonpositive_success_witness :
    (simulate_buffer_overflow (mkDetector 1 1) (-3) false 0 2).overflow = false
    ∧ (simulate_buffer_overflow (mkDetector 1 1) (-3) false 0 2).allocated_size
        = Option.some (-3)
    ∧ (simulate_buffer_overflow (mkDetector 1 1) (-3) false 0 2).message
        = allocSuccessMsg (-3) 2 := by
  have h := simulate_nonpositive_success (mkDetector 1 1) (-3) false 0 2
    (by norm_num) (by norm_num)
  refine ⟨h.1, h.2.1, ?_⟩
  have hm := h.2.2.2.2
  rw [show (2 : ℚ) - 0 = 2 by norm_num] at hm
  exact hm
